import Mathlib

/-!
Shallow embedding of the QuizMind-AI quiz application core
(`src/App.tsx`, `src/services/geminiService.ts`) together with proofs of the
behavioural claims about it.  JS records indexed by string keys are modelled
as functions out of `String` (`Option`-valued when key absence matters, with
an explicit default when the code supplies one), JS `Set` as `Finset String`,
JS 32-bit integer coercions as arithmetic on `Int` with explicit wrapping,
and `Math.random()` draws as an oracle function supplied as an argument.
-/

namespace QuizMind

/-- `Question` record from `types.ts`. -/
structure Question where
  id : String
  question : String
  options : List String
  correctAnswer : String
deriving DecidableEq, Repr

/-- `QuizData` record from `types.ts`. -/
structure QuizData where
  id : String
  title : String
  questions : List Question
deriving DecidableEq, Repr

/-- `UserAnswer` record from `types.ts`. -/
structure UserAnswer where
  questionId : String
  selectedOption : String
  isCorrect : Bool
deriving DecidableEq, Repr

/-- `QuizAttempt` record from `types.ts`. -/
structure QuizAttempt where
  id : String
  timestamp : Nat
  score : Nat
  totalQuestions : Nat
  timeSpent : Nat
  flaggedQuestionIds : List String
  answers : List UserAnswer
deriving DecidableEq, Repr

/-- `QuizState` union type from `types.ts`. -/
inductive QuizState where
  | idle
  | extracting
  | ready
  | playing
  | completed
  | history
  | review
  | mistakes
deriving DecidableEq, Repr

/-- The `selectedOptions` record of `App.tsx`, question id to chosen option;
`none` models an absent key. -/
abbrev SelectedOptions := String → Option String

/-- The `history` record of `App.tsx`, quiz id to attempt list.  The code
always reads it as `history[activeQuizId] || []`, so an absent key behaves as
`[]` and the record is modelled as a total function. -/
abbrev HistoryStore := String → List QuizAttempt

/-! ### Shuffle utility (`App.tsx` lines 19-26) -/

variable {α : Type*}

/-- The swap `[newArr[i], newArr[j]] = [newArr[j], newArr[i]]` of one loop
iteration of `shuffleArray`.  In the source both indices are always in
bounds; out of bounds the model leaves the list unchanged. -/
def listSwap (l : List α) (i j : Nat) : List α :=
  if h : i < l.length ∧ j < l.length then
    (l.set i (l.get ⟨j, h.2⟩)).set j (l.get ⟨i, h.1⟩)
  else l

/-- The `for (let i = newArr.length - 1; i > 0; i--)` loop of `shuffleArray`:
`r i` stands for the draw `Math.floor(Math.random() * (i + 1))` made at loop
index `i` (a value in `[0, i]` for a real random source; no bound on `r` is
needed for the permutation property). -/
def fisherYatesFrom (r : Nat → Nat) : Nat → List α → List α
  | 0, l => l
  | i + 1, l => fisherYatesFrom r i (listSwap l (i + 1) (r (i + 1)))

/-- `shuffleArray` (`App.tsx` lines 19-26): copy the array, then run the
Fisher-Yates loop from index `length - 1` down to `1`. -/
def shuffleArray (r : Nat → Nat) (l : List α) : List α :=
  fisherYatesFrom r (l.length - 1) l

/-! ### Signature generator (`geminiService.ts` lines 32-41, 93-107) -/

/-- One entry of the `questions` array of the raw extraction payload,
before ids are assigned (`extractionSchema` in `geminiService.ts`). -/
structure RawQuestion where
  question : String
  options : List String
  correctAnswer : String
deriving DecidableEq, Repr

/-- The parsed JSON payload an extraction call returns:
`{ title, questions }` with no ids yet. -/
structure ExtractedData where
  title : String
  questions : List RawQuestion
deriving DecidableEq, Repr

/-- `JSON.stringify` escaping of one character, restricted to the two
characters that matter for plain quiz text (backslash and double quote;
control characters are not modelled). -/
def jsonEscapeChar (c : Char) : List Char :=
  if c = '"' ∨ c = '\\' then ['\\', c] else [c]

/-- `JSON.stringify` of one string value. -/
def jsonEncodeString (s : String) : String :=
  "\"" ++ String.mk (s.data.foldr (fun c acc => jsonEscapeChar c ++ acc) []) ++ "\""

/-- `JSON.stringify` of an array of strings. -/
def jsonStringifyStrings (xs : List String) : String :=
  "[" ++ String.intercalate "," (xs.map jsonEncodeString) ++ "]"

/-- JS `Array.prototype.sort()` on an array of strings: sort by the
lexicographic string order. -/
def jsSortStrings (xs : List String) : List String :=
  xs.mergeSort

/-- JS `ToInt32` coercion: wrap an integer into `[-2^31, 2^31)`.  This is
what `x & x` and the result of `<<` perform in `generateSignature`. -/
def toInt32 (n : Int) : Int :=
  (n + 2 ^ 31) % 2 ^ 32 - 2 ^ 31

/-- One iteration of the hash loop of `generateSignature`:
`hash = ((hash << 5) - hash) + char; hash = hash & hash`.  `hash << 5`
coerces `hash * 32` to a signed 32-bit integer and `hash & hash` coerces the
sum again. -/
def hashStep (hash : Int) (c : Nat) : Int :=
  toInt32 (toInt32 (hash * 2 ^ 5) - hash + c)

/-- The hash loop of `generateSignature` over the character codes of `str`,
starting from `0`. -/
def jsHash (s : String) : Int :=
  s.data.foldl (fun h c => hashStep h c.toNat) 0

/-- `generateSignature` (`geminiService.ts` lines 32-41):
`JSON.stringify(data.questions.map(q => q.question).sort())`, hash it, and
format `quiz-<abs(hash)>`. -/
def generateSignature (data : ExtractedData) : String :=
  "quiz-" ++
    toString
      (jsHash (jsonStringifyStrings
        (jsSortStrings (data.questions.map (fun q => q.question))))).natAbs

/-- The successful branch of `parseGeminiResponse` (`geminiService.ts` lines
93-102): take the signature as quiz id and assign per-question ids
`<quizId>-q-<idx>` over the parse order. -/
def parseGeminiResponse (data : ExtractedData) : QuizData :=
  let quizId := generateSignature data
  { id := quizId
  , title := data.title
  , questions :=
      data.questions.enum.map fun p =>
        { id := quizId ++ "-q-" ++ toString p.1
        , question := p.2.question
        , options := p.2.options
        , correctAnswer := p.2.correctAnswer } }

/-! ### Scoring and submission (`App.tsx` lines 125-158) -/

/-- One `UserAnswer` as built in `handleSubmit` (`App.tsx` lines 131-135):
`selectedOption: selectedOptions[q.id] || 'Not Answered'` (JS `||` also
replaces the falsy empty string) and
`isCorrect: selectedOptions[q.id] === q.correctAnswer` (strict equality on
the raw lookup; an absent key compares unequal to every string). -/
def mkUserAnswer (sel : SelectedOptions) (q : Question) : UserAnswer :=
  { questionId := q.id
  , selectedOption :=
      match sel q.id with
      | some s => if s = "" then "Not Answered" else s
      | none => "Not Answered"
  , isCorrect := decide (sel q.id = some q.correctAnswer) }

/-- The `finalAnswers` array of `handleSubmit`: one `UserAnswer` per entry of
`shuffledQuestions`, in order. -/
def finalAnswers (sel : SelectedOptions) (qs : List Question) : List UserAnswer :=
  qs.map (mkUserAnswer sel)

/-- The `QuizAttempt` built in `handleSubmit` (`App.tsx` lines 137-145);
`now` stands for `Date.now()`. -/
def mkAttempt (now : Nat) (timerSeconds : Nat) (sessionFlags : List String)
    (qs : List Question) (sel : SelectedOptions) : QuizAttempt :=
  let answers := finalAnswers sel qs
  { id := "att-" ++ toString now
  , timestamp := now
  , score := (answers.filter (fun a => a.isCorrect)).length
  , totalQuestions := qs.length
  , timeSpent := timerSeconds
  , flaggedQuestionIds := sessionFlags
  , answers := answers }

/-- The state `handleSubmit` leaves behind: the (possibly updated) history
record, the `userAnswers` it stores, and the new `QuizState`. -/
structure SubmitResult where
  history : HistoryStore
  userAnswers : List UserAnswer
  state : QuizState

/-- `handleSubmit` (`App.tsx` lines 125-158), after the early-submit
confirmation: build the answers and the attempt; append the attempt to the
active quiz's history entry when `activeQuizId` is set, leave history alone
otherwise; store the answers and move to `completed`. -/
def handleSubmit (activeQuizId : Option String) (history : HistoryStore)
    (qs : List Question) (sel : SelectedOptions)
    (timerSeconds : Nat) (sessionFlags : List String) (now : Nat) : SubmitResult :=
  let attempt := mkAttempt now timerSeconds sessionFlags qs sel
  match activeQuizId with
  | some qid =>
      { history := fun k => if k = qid then history qid ++ [attempt] else history k
      , userAnswers := finalAnswers sel qs
      , state := QuizState.completed }
  | none =>
      { history := history
      , userAnswers := finalAnswers sel qs
      , state := QuizState.completed }

/-! ### Session state and navigation (`App.tsx` lines 110-123, 432-448) -/

/-- The playing-session state of `App.tsx`: the shuffled working copy,
current index (JS number, modelled as `Int` so that out-of-range arithmetic
is represented faithfully), selections, session flags, timer, pause flag. -/
structure Session where
  shuffledQuestions : List Question
  currentIdx : Int
  selectedOptions : SelectedOptions
  sessionFlags : Finset String
  timerSeconds : Nat
  isPaused : Bool

/-- `prepareQuiz` (`App.tsx` lines 110-123): shuffle the question order,
shuffle each question's options (`ro k` is the random source of the option
shuffle of the question at shuffled position `k`), and reset index,
selections, session flags, timer and pause. -/
def prepareQuiz (r : Nat → Nat) (ro : Nat → Nat → Nat)
    (questions : List Question) : Session :=
  { shuffledQuestions :=
      (shuffleArray r questions).enum.map fun p =>
        { p.2 with options := shuffleArray (ro p.1) p.2.options }
  , currentIdx := 0
  , selectedOptions := fun _ => none
  , sessionFlags := ∅
  , timerSeconds := 0
  , isPaused := false }

/-- `setCurrentIdx(p => Math.max(0, p - 1))` (`App.tsx` line 432). -/
def navPrevious (s : Session) : Session :=
  { s with currentIdx := max 0 (s.currentIdx - 1) }

/-- `setCurrentIdx(p => Math.min(shuffledQuestions.length - 1, p + 1))`
(`App.tsx` line 437). -/
def navNext (s : Session) : Session :=
  { s with currentIdx := min ((s.shuffledQuestions.length : Int) - 1) (s.currentIdx + 1) }

/-- `setCurrentIdx(idx)` from a question-map button (`App.tsx` line 448);
one button exists per position of `shuffledQuestions`, so the jump target is
always a position of that list. -/
def navJump (s : Session) (i : Nat) : Session :=
  { s with currentIdx := (i : Int) }

/-- The session index invariant of the spec:
`0 <= currentIndex < len(shuffledQuestions)`. -/
def idxInvariant (s : Session) : Prop :=
  0 ≤ s.currentIdx ∧ s.currentIdx < (s.shuffledQuestions.length : Int)

/-! ### Flag toggling (`App.tsx` lines 160-171) -/

/-- One functional update of `toggleFlag`: copy the set, delete the id when
present, add it otherwise. -/
def toggleSet (s : Finset String) (id : String) : Finset String :=
  if id ∈ s then s.erase id else insert id s

/-- `toggleFlag` (`App.tsx` lines 160-171): apply the same toggle to the
global flag set and to the session flag set. -/
def toggleFlag (gflags sflags : Finset String) (id : String) :
    Finset String × Finset String :=
  (toggleSet gflags id, toggleSet sflags id)

/-! ### Extraction triggers and failure handling
(`App.tsx` lines 90-108, 331-335, 340-347) -/

/-- Outcome of an awaited extraction call: the parsed `QuizData`, or the
thrown error's message. -/
inductive ExtractOutcome where
  | ok (d : QuizData)
  | failure (msg : String)
deriving Repr

/-- The observable result of one extraction trigger: final state, the
`alert` message if one was shown, how many extraction calls the handler
issued, the resulting parsed cache and active quiz id. -/
structure HandlerResult where
  state : QuizState
  alertMsg : Option String
  extractionCalls : Nat
  cache : String → Option QuizData
  activeQuizId : Option String

/-- `handleSelectQuiz` (`App.tsx` lines 90-108): set the active id; a cached
quiz goes straight to `history`; otherwise a missing raw definition throws
(caught below), else the extraction outcome `res` is handled — success
caches the quiz under the selected id and moves to `history`, failure alerts
`"AI Processing Failed: " + message` and returns to `idle`. -/
def handleSelectQuiz (cache : String → Option QuizData)
    (raw : String → Option String) (res : ExtractOutcome) (id : String) :
    HandlerResult :=
  match cache id with
  | some _ =>
      { state := QuizState.history, alertMsg := none, extractionCalls := 0
      , cache := cache, activeQuizId := some id }
  | none =>
      match raw id with
      | none =>
          { state := QuizState.idle
          , alertMsg := some ("AI Processing Failed: " ++ "Set definition missing")
          , extractionCalls := 0, cache := cache, activeQuizId := some id }
      | some _ =>
          match res with
          | ExtractOutcome.ok parsed =>
              { state := QuizState.history, alertMsg := none, extractionCalls := 1
              , cache := fun k => if k = id then some { parsed with id := id } else cache k
              , activeQuizId := some id }
          | ExtractOutcome.failure msg =>
              { state := QuizState.idle
              , alertMsg := some ("AI Processing Failed: " ++ msg)
              , extractionCalls := 1, cache := cache, activeQuizId := some id }

/-- The file-import `onChange` handler (`App.tsx` lines 331-335) once a file
was chosen: success caches the quiz under its own id and moves to `history`,
failure alerts the raw message and returns to `idle` without touching the
cache or the active id. -/
def handleFileImport (prevActive : Option String)
    (cache : String → Option QuizData) (res : ExtractOutcome) : HandlerResult :=
  match res with
  | ExtractOutcome.ok data =>
      { state := QuizState.history, alertMsg := none, extractionCalls := 1
      , cache := fun k => if k = data.id then some data else cache k
      , activeQuizId := some data.id }
  | ExtractOutcome.failure msg =>
      { state := QuizState.idle, alertMsg := some msg, extractionCalls := 1
      , cache := cache, activeQuizId := prevActive }

/-- JS `String.prototype.trim()`: strip whitespace from both ends. -/
def jsTrim (s : String) : String :=
  String.mk ((s.data.dropWhile Char.isWhitespace).reverse.dropWhile Char.isWhitespace).reverse

/-- The pasted-text import handler (`App.tsx` lines 340-347): nothing happens
when the trimmed text is empty; otherwise the extraction outcome is handled
like the file import (but with the library tab restored on success). -/
def handleCsvImport (prev : QuizState) (prevActive : Option String)
    (cache : String → Option QuizData) (csvContent : String)
    (res : ExtractOutcome) : HandlerResult :=
  if jsTrim csvContent = "" then
    { state := prev, alertMsg := none, extractionCalls := 0
    , cache := cache, activeQuizId := prevActive }
  else
    match res with
    | ExtractOutcome.ok data =>
        { state := QuizState.history, alertMsg := none, extractionCalls := 1
        , cache := fun k => if k = data.id then some data else cache k
        , activeQuizId := some data.id }
    | ExtractOutcome.failure msg =>
        { state := QuizState.idle, alertMsg := some msg, extractionCalls := 1
        , cache := cache, activeQuizId := prevActive }

/-! ### Claim-side definitions used for comparison -/

/-- The per-question answer exactly as claim C1 and spec section 4.4 word it:
`selectedOption = selectedOptions[q.id] ?? "Not Answered"` (the sentinel only
when no entry exists) and `isCorrect = (selectedOption == q.correctAnswer)`
on that substituted value.  Written from the spec's words, to be compared
with `mkUserAnswer`. -/
def answerPerSpecC1 (sel : SelectedOptions) (q : Question) : UserAnswer :=
  let so := (sel q.id).getD "Not Answered"
  { questionId := q.id
  , selectedOption := so
  , isCorrect := decide (so = q.correctAnswer) }

/-- Amended form of claim C1's per-question answer: the sentinel replaces
both a missing and an empty-string entry, and `isCorrect` holds exactly when
an entry exists and equals the reference answer under exact string
equality. -/
def answerAmendedC1 (sel : SelectedOptions) (q : Question) : UserAnswer :=
  { questionId := q.id
  , selectedOption :=
      if sel q.id = none ∨ sel q.id = some "" then "Not Answered"
      else (sel q.id).getD ""
  , isCorrect := decide (sel q.id = some q.correctAnswer) }

/-- A sample question used by concrete witnesses. -/
def qEx : Question :=
  { id := "q1", question := "Capital of France?"
  , options := ["Paris", "Rome"], correctAnswer := "Paris" }

/-! ## Helper lemmas -/

/-- Swapping the element at position `k` to the front while writing `a` into
that position permutes `a :: l`. -/
theorem get_cons_set_perm {α : Type*} (a : α) :
    ∀ (l : List α) (k : Nat) (hk : k < l.length),
      (l.get ⟨k, hk⟩ :: l.set k a).Perm (a :: l) := by
  intro l
  induction l with
  | nil => intro k hk; simp at hk
  | cons x t ih =>
    intro k hk
    cases k with
    | zero => exact List.Perm.swap a x t
    | succ k =>
      have hk' : k < t.length := Nat.lt_of_succ_lt_succ hk
      have s1 : (t.get ⟨k, hk'⟩ :: x :: t.set k a).Perm
          (x :: t.get ⟨k, hk'⟩ :: t.set k a) :=
        List.Perm.swap x (t.get ⟨k, hk'⟩) _
      have s2 : (x :: t.get ⟨k, hk'⟩ :: t.set k a).Perm (x :: a :: t) :=
        List.Perm.cons x (ih k hk')
      have s3 : (x :: a :: t).Perm (a :: x :: t) := List.Perm.swap a x t
      exact (s1.trans s2).trans s3

/-- Writing back the element already stored at a position is a no-op. -/
theorem set_get_self {α : Type*} :
    ∀ (l : List α) (k : Nat) (hk : k < l.length), l.set k (l.get ⟨k, hk⟩) = l := by
  intro l
  induction l with
  | nil => intro k hk; simp at hk
  | cons x t ih =>
    intro k hk
    cases k with
    | zero => rfl
    | succ k =>
      have hk' : k < t.length := Nat.lt_of_succ_lt_succ hk
      show x :: t.set k (t.get ⟨k, hk'⟩) = x :: t
      rw [ih k hk']

/-- The two `set` writes of one Fisher-Yates swap permute the list. -/
theorem swap_sets_perm {α : Type*} (l : List α) (i j : Nat)
    (hi : i < l.length) (hj : j < l.length) :
    ((l.set i (l.get ⟨j, hj⟩)).set j (l.get ⟨i, hi⟩)).Perm l := by
  by_cases hij : i = j
  · subst hij
    rw [List.set_set, set_get_self l i hi]
  · have hjL : j < (l.set i (l.get ⟨j, hj⟩)).length := by
      simpa using hj
    have hgetL : (l.set i (l.get ⟨j, hj⟩)).get ⟨j, hjL⟩ = l.get ⟨j, hj⟩ := by
      simp [List.get_eq_getElem, List.getElem_set_ne hij]
    have h1 := get_cons_set_perm (l.get ⟨i, hi⟩) (l.set i (l.get ⟨j, hj⟩)) j hjL
    rw [hgetL] at h1
    have h2 := get_cons_set_perm (l.get ⟨j, hj⟩) l i hi
    exact List.Perm.cons_inv (h1.trans h2)

/-- `listSwap` permutes its input. -/
theorem listSwap_perm {α : Type*} (l : List α) (i j : Nat) :
    (listSwap l i j).Perm l := by
  unfold listSwap
  split
  · next h => exact swap_sets_perm l i j h.1 h.2
  · exact List.Perm.refl l

/-- Every run of the Fisher-Yates loop permutes its input. -/
theorem fisherYatesFrom_perm {α : Type*} (r : Nat → Nat) (n : Nat) (l : List α) :
    (fisherYatesFrom r n l).Perm l := by
  induction n generalizing l with
  | zero => exact List.Perm.refl l
  | succ k ih => exact (ih _).trans (listSwap_perm l (k + 1) (r (k + 1)))

/-- Sorting is invariant under permutation of the input. -/
theorem jsSortStrings_eq_of_perm {l1 l2 : List String} (h : l1.Perm l2) :
    jsSortStrings l1 = jsSortStrings l2 :=
  List.eq_of_perm_of_sorted
    (((List.mergeSort_perm l1 _).trans h).trans (List.mergeSort_perm l2 _).symm)
    (List.sorted_mergeSort' l1) (List.sorted_mergeSort' l2)

/-- `mkUserAnswer` agrees with the amended claim-C1 characterisation. -/
theorem mkUserAnswer_eq_amended (sel : SelectedOptions) (q : Question) :
    mkUserAnswer sel q = answerAmendedC1 sel q := by
  unfold mkUserAnswer answerAmendedC1
  cases h : sel q.id with
  | none => simp [h]
  | some s =>
    by_cases hs : s = "" <;> simp [h, hs]

/-- Double application of `toggleSet` restores the set. -/
theorem toggleSet_toggleSet (s : Finset String) (q : String) :
    toggleSet (toggleSet s q) q = s := by
  unfold toggleSet
  by_cases h : q ∈ s
  · rw [if_pos h, if_neg (Finset.not_mem_erase q s), Finset.insert_erase h]
  · rw [if_neg h, if_pos (Finset.mem_insert_self q s), Finset.erase_insert h]

/-- A single `toggleSet` flips membership of the toggled id. -/
theorem mem_toggleSet (s : Finset String) (q : String) :
    q ∈ toggleSet s q ↔ q ∉ s := by
  unfold toggleSet
  by_cases h : q ∈ s <;> simp [h]

/-! ## Claim theorems -/

/-- C1 fails as stated: with the stored selection `"q1" ↦ ""` (an explicitly
answered question whose stored entry is the empty string), the code records
the sentinel `"Not Answered"` as `selectedOption`, not the stored entry `""`
the claim requires. -/
theorem c1_counterexample :
    mkUserAnswer (fun k => if k = "q1" then some "" else none)
        { id := "q1", question := "t", options := ["A", ""], correctAnswer := "A" }
      ≠ answerPerSpecC1 (fun k => if k = "q1" then some "" else none)
        { id := "q1", question := "t", options := ["A", ""], correctAnswer := "A" } := by
  decide

/-- C1 (amended): at submission the scoring engine produces exactly one
`UserAnswer` per question of `shuffledQuestions`, in order, whose
`selectedOption` is the entry of `selectedOptions` for the question's id when
an entry exists and is non-empty and the sentinel `"Not Answered"` otherwise,
and whose `isCorrect` is true exactly when an entry exists and equals
`q.correctAnswer` under exact string equality with no normalization — for
every `shuffledQuestions` list and every `selectedOptions` mapping. -/
theorem c1_scoring_amended (sel : SelectedOptions) (qs : List Question) :
    finalAnswers sel qs = qs.map (answerAmendedC1 sel) := by
  unfold finalAnswers
  rw [show mkUserAnswer sel = answerAmendedC1 sel from
    funext (mkUserAnswer_eq_amended sel)]

/-- C2: for every random source and every input list, `shuffleArray` returns
a permutation of the input (same multiset of elements, hence same length).
The embedding is a pure function of the copy it builds, matching the
source's copy-then-swap loop, so the input list itself is untouched. -/
theorem c2_shuffleArray_perm {α : Type*} (r : Nat → Nat) (l : List α) :
    (shuffleArray r l).Perm l ∧ (shuffleArray r l).length = l.length :=
  ⟨fisherYatesFrom_perm r (l.length - 1) l,
    (fisherYatesFrom_perm r (l.length - 1) l).length_eq⟩

/-- C3: two extraction results whose question-text collections agree up to
order (titles and option orders may differ arbitrarily) receive the same
quiz id from `generateSignature`; the function is a pure function of its
input, hence deterministic. -/
theorem c3_signature_perm_invariant (d1 d2 : ExtractedData)
    (h : (d1.questions.map (fun q => q.question)).Perm
      (d2.questions.map (fun q => q.question))) :
    generateSignature d1 = generateSignature d2 := by
  unfold generateSignature
  rw [jsSortStrings_eq_of_perm h]

/-- Witness for C3: two concrete payloads with the same two question texts
in opposite order, different titles and different option lists, get the same
signature. -/
theorem c3_witness :
    generateSignature
        { title := "T1"
        , questions :=
            [ { question := "Q one", options := ["a", "b"], correctAnswer := "a" }
            , { question := "Q two", options := ["c", "d"], correctAnswer := "c" } ] }
      = generateSignature
        { title := "T2"
        , questions :=
            [ { question := "Q two", options := ["d", "c"], correctAnswer := "c" }
            , { question := "Q one", options := ["x"], correctAnswer := "x" } ] } :=
  c3_signature_perm_invariant _ _ (by decide)

/-- C4: submitting with an active quiz id appends exactly one `QuizAttempt`
— whose `answers` list has exactly `totalQuestions` entries — to that quiz's
history entry (an absent entry reads as `[]`, so it is created), leaves all
previously stored attempts of that quiz in place as the unchanged front of
the list, and leaves the history entry of every other quiz id untouched;
this update is the only change `handleSubmit` makes to the history store. -/
theorem c4_submit_appends (qid : String) (history : HistoryStore)
    (qs : List Question) (sel : SelectedOptions) (t : Nat)
    (flags : List String) (now : Nat) :
    (handleSubmit (some qid) history qs sel t flags now).history qid
        = history qid ++ [mkAttempt now t flags qs sel]
      ∧ (∀ k, k ≠ qid →
          (handleSubmit (some qid) history qs sel t flags now).history k = history k)
      ∧ (mkAttempt now t flags qs sel).answers.length
        = (mkAttempt now t flags qs sel).totalQuestions := by
  refine ⟨by simp [handleSubmit], fun k hk => by simp [handleSubmit, hk], ?_⟩
  simp [mkAttempt, finalAnswers]

/-- Witness for C4 at a concrete submission: the active entry gains exactly
the one attempt, a different quiz id keeps its stored history, and the
attempt records one answer per question. -/
theorem c4_witness :
    (handleSubmit (some "quiz-7") (fun _ => []) [qEx] (fun _ => none) 3 [] 5).history "quiz-7"
        = [] ++ [mkAttempt 5 3 [] [qEx] (fun _ => none)]
      ∧ (handleSubmit (some "quiz-7") (fun _ => []) [qEx] (fun _ => none) 3 [] 5).history "other"
        = []
      ∧ (mkAttempt 5 3 [] [qEx] (fun _ => none)).answers.length
        = (mkAttempt 5 3 [] [qEx] (fun _ => none)).totalQuestions :=
  ⟨(c4_submit_appends "quiz-7" (fun _ => []) [qEx] (fun _ => none) 3 [] 5).1,
    (c4_submit_appends "quiz-7" (fun _ => []) [qEx] (fun _ => none) 3 [] 5).2.1
      "other" (by decide),
    (c4_submit_appends "quiz-7" (fun _ => []) [qEx] (fun _ => none) 3 [] 5).2.2⟩

/-- C5: submitting with an empty `selectedOptions` mapping yields, for every
question, a `UserAnswer` with the sentinel `selectedOption` and
`isCorrect = false`. -/
theorem c5_no_selections (qs : List Question) :
    ∀ a ∈ finalAnswers (fun _ => none) qs,
      a.selectedOption = "Not Answered" ∧ a.isCorrect = false := by
  intro a ha
  unfold finalAnswers at ha
  obtain ⟨q, _, rfl⟩ := List.mem_map.mp ha
  exact ⟨rfl, rfl⟩

/-- Witness for C5 on a concrete one-question quiz: the single produced
answer is the not-answered, incorrect one. -/
theorem c5_witness :
    ({ questionId := "q1", selectedOption := "Not Answered", isCorrect := false }
        : UserAnswer).selectedOption = "Not Answered"
      ∧ ({ questionId := "q1", selectedOption := "Not Answered", isCorrect := false }
        : UserAnswer).isCorrect = false :=
  c5_no_selections [qEx] _ (by decide)

/-- `prepareQuiz` keeps the number of questions. -/
theorem prepareQuiz_length (r : Nat → Nat) (ro : Nat → Nat → Nat)
    (qs : List Question) :
    (prepareQuiz r ro qs).shuffledQuestions.length = qs.length := by
  unfold prepareQuiz
  rw [List.length_map, List.enum_length]
  exact (fisherYatesFrom_perm r (qs.length - 1) qs).length_eq

/-- `navPrevious` preserves the index invariant. -/
theorem navPrevious_inv (s : Session) (h : idxInvariant s) :
    idxInvariant (navPrevious s) := by
  unfold idxInvariant navPrevious at *
  dsimp at *
  omega

/-- `navNext` preserves the index invariant. -/
theorem navNext_inv (s : Session) (h : idxInvariant s) :
    idxInvariant (navNext s) := by
  unfold idxInvariant navNext at *
  dsimp at *
  omega

/-- `navJump` to a position of `shuffledQuestions` establishes the index
invariant. -/
theorem navJump_inv (s : Session) (i : Nat)
    (hi : i < s.shuffledQuestions.length) : idxInvariant (navJump s i) := by
  unfold idxInvariant navJump
  dsimp
  omega

/-- C6 fails as stated: preparing a quiz from an empty question list (which
extraction permits, since `parseGeminiResponse` accepts an empty `questions`
array) resets `currentIdx` to `0` while `shuffledQuestions` is empty, so
`0 ≤ currentIdx < len(shuffledQuestions)` does not hold after preparation. -/
theorem c6_counterexample :
    ¬ idxInvariant (prepareQuiz (fun _ => 0) (fun _ _ => 0) []) := by
  unfold idxInvariant
  have h3 : (prepareQuiz (fun _ => 0) (fun _ _ => 0) ([] : List Question)).currentIdx
      = 0 := rfl
  have h1 : (prepareQuiz (fun _ => 0) (fun _ _ => 0) ([] : List Question)).shuffledQuestions.length
      = 0 := prepareQuiz_length (fun _ => 0) (fun _ _ => 0) []
  rw [h3, h1]
  omega

/-- C6 (amended): provided the prepared question list is nonempty, quiz
preparation establishes `0 ≤ currentIndex < len(shuffledQuestions)` (index
reset to 0), and every playing-state navigation — previous, next, and a jump
to any position of `shuffledQuestions` (the only jumps the question map can
issue) — preserves the invariant in every session state satisfying it. -/
theorem c6_session_index (r : Nat → Nat) (ro : Nat → Nat → Nat)
    (qs : List Question) (hqs : qs ≠ []) :
    idxInvariant (prepareQuiz r ro qs)
      ∧ ∀ s : Session, idxInvariant s →
          idxInvariant (navPrevious s) ∧ idxInvariant (navNext s)
            ∧ ∀ i : Nat, i < s.shuffledQuestions.length → idxInvariant (navJump s i) := by
  constructor
  · have h1 := prepareQuiz_length r ro qs
    have h2 : 0 < qs.length := List.length_pos.mpr hqs
    have h3 : (prepareQuiz r ro qs).currentIdx = 0 := rfl
    unfold idxInvariant
    rw [h3, h1]
    omega
  · intro s hs
    exact ⟨navPrevious_inv s hs, navNext_inv s hs, fun i hi => navJump_inv s i hi⟩

/-- Witness for C6 on a concrete nonempty quiz: preparation establishes the
invariant. -/
theorem c6_witness :
    idxInvariant (prepareQuiz (fun _ => 0) (fun _ _ => 0) [qEx]) :=
  (c6_session_index (fun _ => 0) (fun _ _ => 0) [qEx] (by decide)).1

/-- C7: toggling the flag of a question id twice restores both the global
and the session flag set exactly, and each single toggle updates both sets
(membership of the toggled id flips in each). -/
theorem c7_toggle_involutive (gflags sflags : Finset String) (q : String) :
    toggleFlag (toggleFlag gflags sflags q).1 (toggleFlag gflags sflags q).2 q
        = (gflags, sflags)
      ∧ ((q ∈ (toggleFlag gflags sflags q).1) ↔ q ∉ gflags)
      ∧ ((q ∈ (toggleFlag gflags sflags q).2) ↔ q ∉ sflags) := by
  refine ⟨?_, mem_toggleSet gflags q, mem_toggleSet sflags q⟩
  show toggleFlag (toggleSet gflags q) (toggleSet sflags q) q = (gflags, sflags)
  unfold toggleFlag
  rw [toggleSet_toggleSet, toggleSet_toggleSet]

/-- C8: when the extraction collaborator fails, each of the three trigger
paths — library selection of an uncached quiz, file import, and the
pasted-text import — ends in `idle`, surfaces an alert message, issued one
extraction call (so no automatic retry happens within the handler), and
leaves the parsed cache unchanged. -/
theorem c8_extraction_failure_idle (msg id csv : String)
    (cache : String → Option QuizData) (raw : String → Option String)
    (prevActive : Option String) (hc : cache id = none)
    (hr : raw id ≠ none) (hcsv : jsTrim csv ≠ "") :
    ((handleSelectQuiz cache raw (ExtractOutcome.failure msg) id).state = QuizState.idle
      ∧ (handleSelectQuiz cache raw (ExtractOutcome.failure msg) id).alertMsg
        = some ("AI Processing Failed: " ++ msg)
      ∧ (handleSelectQuiz cache raw (ExtractOutcome.failure msg) id).extractionCalls = 1
      ∧ (handleSelectQuiz cache raw (ExtractOutcome.failure msg) id).cache = cache)
    ∧ ((handleFileImport prevActive cache (ExtractOutcome.failure msg)).state = QuizState.idle
      ∧ (handleFileImport prevActive cache (ExtractOutcome.failure msg)).alertMsg = some msg
      ∧ (handleFileImport prevActive cache (ExtractOutcome.failure msg)).extractionCalls = 1
      ∧ (handleFileImport prevActive cache (ExtractOutcome.failure msg)).cache = cache)
    ∧ ((handleCsvImport QuizState.idle prevActive cache csv
          (ExtractOutcome.failure msg)).state = QuizState.idle
      ∧ (handleCsvImport QuizState.idle prevActive cache csv
          (ExtractOutcome.failure msg)).alertMsg = some msg
      ∧ (handleCsvImport QuizState.idle prevActive cache csv
          (ExtractOutcome.failure msg)).extractionCalls = 1
      ∧ (handleCsvImport QuizState.idle prevActive cache csv
          (ExtractOutcome.failure msg)).cache = cache) := by
  obtain ⟨v, hv⟩ := Option.ne_none_iff_exists'.mp hr
  refine ⟨?_, ⟨rfl, rfl, rfl, rfl⟩, ?_⟩
  · simp [handleSelectQuiz, hc, hv]
  · simp [handleCsvImport, hcsv]

/-- Witness for C8 at a concrete failing extraction on all three paths. -/
theorem c8_witness :
    (handleSelectQuiz (fun _ => none) (fun _ => some "raw") (ExtractOutcome.failure "boom")
        "s1").state = QuizState.idle
      ∧ (handleFileImport none (fun _ => none) (ExtractOutcome.failure "boom")).state
        = QuizState.idle
      ∧ (handleCsvImport QuizState.idle none (fun _ => none) "x"
          (ExtractOutcome.failure "boom")).state = QuizState.idle :=
  ⟨(c8_extraction_failure_idle "boom" "s1" "x" (fun _ => none) (fun _ => some "raw") none
      rfl (by decide) (by decide)).1.1,
    (c8_extraction_failure_idle "boom" "s1" "x" (fun _ => none) (fun _ => some "raw") none
      rfl (by decide) (by decide)).2.1.1,
    (c8_extraction_failure_idle "boom" "s1" "x" (fun _ => none) (fun _ => some "raw") none
      rfl (by decide) (by decide)).2.2.1⟩

/-- C9: with no active quiz id, `handleSubmit` leaves the whole history
mapping unchanged — no attempt is stored anywhere — while the session still
receives the computed answers and moves to `completed`. -/
theorem c9_no_active_quiz_submit (history : HistoryStore) (qs : List Question)
    (sel : SelectedOptions) (t : Nat) (flags : List String) (now : Nat) :
    (handleSubmit none history qs sel t flags now).history = history
      ∧ (handleSubmit none history qs sel t flags now).userAnswers = finalAnswers sel qs
      ∧ (handleSubmit none history qs sel t flags now).state = QuizState.completed :=
  ⟨rfl, rfl, rfl⟩

/-- C10: a question whose stored selection is the empty string is recorded
with the sentinel `"Not Answered"` even though it was explicitly answered,
while `isCorrect` is computed as `"" === q.correctAnswer` on the raw entry;
consequently (last two conjuncts) a `UserAnswer` with
`selectedOption = "Not Answered"` and `isCorrect = true` is producible when
`q.correctAnswer` is `""`. -/
theorem c10_empty_string_selection (q : Question) (sel : SelectedOptions)
    (h : sel q.id = some "") :
    (mkUserAnswer sel q).selectedOption = "Not Answered"
      ∧ (mkUserAnswer sel q).isCorrect = decide (("" : String) = q.correctAnswer)
      ∧ (mkUserAnswer (fun _ => some "")
          { id := "q0", question := "t", options := [""], correctAnswer := "" }).selectedOption
          = "Not Answered"
      ∧ (mkUserAnswer (fun _ => some "")
          { id := "q0", question := "t", options := [""], correctAnswer := "" }).isCorrect
          = true := by
  refine ⟨?_, ?_, by decide, by decide⟩
  · simp [mkUserAnswer, h]
  · simp [mkUserAnswer, h]

/-- Witness for C10 at a concrete question answered with the empty string. -/
theorem c10_witness :
    (mkUserAnswer (fun _ => some "") qEx).selectedOption = "Not Answered"
      ∧ (mkUserAnswer (fun _ => some "") qEx).isCorrect
        = decide (("" : String) = qEx.correctAnswer) :=
  ⟨(c10_empty_string_selection qEx (fun _ => some "") rfl).1,
    (c10_empty_string_selection qEx (fun _ => some "") rfl).2.1⟩

end QuizMind
